import Mathlib

/-!
Verification of the session lifecycle and validation engine of the
discord-tictactoe bot (GameStateManager, GameCommand and their collaborators).

The TypeScript source is shallowly embedded: each method becomes a Lean
function over an explicit state; asynchronous control flow is modelled by an
environment record carrying the outcome of every external call (message
sending, event handlers), and each entry point additionally returns a trace
of abstract actions so that ordering relative to suspension points can be
stated.  JavaScript peculiarities that the claims depend on are modelled
faithfully: `Array.prototype.indexOf` returning `-1`, `splice` with a
negative start index, `Map.set`, the `??` operator, and the three-way
`undefined` / `null` / value distinction of `endGame`'s `winner` argument.
-/

namespace TicTacToe

/-- Difficulty levels of the AI opponent.  The concrete enum lives outside the
excerpt; the exact set of levels is irrelevant to the claims, only that a
configured name maps to a level and that an absent or unrecognized name falls
back to a default. -/
inductive AIDifficulty where
  | easy
  | medium
  | hard
  | unbeatable
deriving DecidableEq, Repr

/-- Modelled from the spec: the AI factory "constructs an Entity given an
optional difficulty level name, defaulting when absent or unrecognized".
This is the default used when no recognized difficulty is supplied. -/
def defaultAIDifficulty : AIDifficulty := AIDifficulty.medium

/-- Modelled from the spec: lookup of a difficulty level name in the
`AIDifficultyLevel` enum (`AIDifficultyLevel[name]` in the source), which is
`undefined` (here `none`) for an unrecognized name. -/
def aiDifficultyLevelOf : String → Option AIDifficulty
  | "Easy" => some AIDifficulty.easy
  | "Medium" => some AIDifficulty.medium
  | "Hard" => some AIDifficulty.hard
  | "Unbeatable" => some AIDifficulty.unbeatable
  | _ => none

/-- A guild member (human participant).  `oid` stands for the JavaScript
object reference, so that structural equality on this type models JS
reference equality (`===`).  `viewChannels` records the channels in which the
member has the `ViewChannel` permission. -/
structure GuildMember where
  oid : Nat
  id : String
  bot : Bool
  viewChannels : List Nat
deriving DecidableEq, Repr

/-- An AI opponent, as produced by `createAI`. -/
structure AI where
  oid : Nat
  difficulty : AIDifficulty
deriving DecidableEq, Repr

/-- A session participant: a human member or an AI opponent. -/
inductive Entity where
  | member (m : GuildMember)
  | ai (a : AI)
deriving DecidableEq, Repr

/-- A messaging tunnel: the abstraction over how a reply is delivered.  The
core only reads its `author` and `channel`. -/
structure MessagingTunnel where
  author : GuildMember
  channel : Nat
deriving DecidableEq, Repr

/-- Modelled from the spec: the GameBoard entity (its class is outside the
excerpt).  It "holds the two participant entities", keeps its originating
tunnel (of which only the channel matters here), and `oid` models the JS
object reference so equality is reference equality. -/
structure GameBoard where
  oid : Nat
  channel : Nat
  entities : Entity × Entity
deriving DecidableEq, Repr

/-- A JavaScript `Error` value; `message` is `none` when the thrown value
carries no message. -/
structure JsError where
  message : Option String
deriving DecidableEq, Repr

/-- Outcome of an awaited promise: resolved with a value, or rejected with an
optional error payload (`Promise.reject()` with no argument gives `none`). -/
inductive PResult (α : Type) where
  | resolved (a : α)
  | rejected (err : Option JsError)
deriving DecidableEq, Repr

/-- An event emitted through the bot's event hub, with its payload.  The
`win` payload's loser comes from `Array.prototype.find` and may be absent. -/
inductive GameEvent where
  | newGame (players : Entity × Entity)
  | win (winner : Entity) (loser : Option Entity)
  | tie (players : Entity × Entity)
deriving DecidableEq, Repr

/-- Abstract actions recorded by the entry points, used to state ordering
properties relative to asynchronous suspension points (`await`). -/
inductive Action where
  | validCheck
  | possibleCheck
  | constructDuel
  | emitNewGame
  | registryAppend
  | awaitReply
  | awaitAttach
  | cooldownWrite
deriving DecidableEq, Repr

/-- Actions that read or mutate the manager's registry or run the
veto-capable notification: the validator calls, the `newGame` emission and
the registry append. -/
def Action.isRegistryOp : Action → Bool
  | Action.validCheck => true
  | Action.possibleCheck => true
  | Action.emitNewGame => true
  | Action.registryAppend => true
  | _ => false

/-- Actions that are asynchronous suspension points (`await` in the source). -/
def Action.isAwait : Action → Bool
  | Action.awaitReply => true
  | Action.awaitAttach => true
  | _ => false

/-- The mutable state owned by `GameStateManager`: the gameboard registry and
the member cooldown map (`Map<string, number>`, modelled as an association
list in insertion order, as a JS `Map` iterates). -/
structure ManagerState where
  gameboards : List GameBoard
  memberCooldownEndTimes : List (String × Int)
deriving DecidableEq, Repr

/-- The configuration fields read by the state manager. -/
structure Configuration where
  requestCooldownTime : Option Int
  aiDifficulty : Option String
deriving DecidableEq, Repr

/-- JavaScript `Map.prototype.set`: overwrite the value under an existing
key, otherwise append a new entry. -/
def mapSet (m : List (String × Int)) (k : String) (v : Int) : List (String × Int) :=
  if m.any (fun p => p.1 = k) then
    m.map (fun p => if p.1 = k then (k, v) else p)
  else
    m ++ [(k, v)]

/-- JavaScript `Map.prototype.get`. -/
def mapGet (m : List (String × Int)) (k : String) : Option Int :=
  (m.find? (fun p => p.1 = k)).map (fun p => p.2)

/-- JavaScript `Array.prototype.indexOf`: index of the first element equal
(`===`) to `a`, or `-1` when there is none. -/
def jsIndexOf {α : Type} [DecidableEq α] : List α → α → Int
  | [], _ => -1
  | b :: t, a =>
    if b = a then 0
    else
      let r := jsIndexOf t a
      if r < 0 then -1 else r + 1

/-- JavaScript `Array.prototype.splice(start, 1)`: a negative `start` counts
from the end (clamped at 0), a too-large `start` is clamped to the length; at
most one element, the one at the resulting position, is removed. -/
def spliceDeleteOne {α : Type} (l : List α) (start : Int) : List α :=
  let len : Int := l.length
  let actual : Int :=
    if start < 0 then (if len + start < 0 then 0 else len + start)
    else (if start > len then len else start)
  l.take actual.toNat ++ l.drop (actual.toNat + 1)

/-- JavaScript `gameboard.entities.find(entity => entity !== winner)` over
the two-element entity array. -/
def findOtherEntity (entities : Entity × Entity) (winner : Entity) : Option Entity :=
  if entities.1 ≠ winner then some entities.1
  else if entities.2 ≠ winner then some entities.2
  else none

/-- The `winner` argument of `endGame`: a concrete entity, an explicit
`null`, or omitted (`undefined`). -/
inductive WinnerArg where
  | entity (e : Entity)
  | null
  | undef
deriving DecidableEq, Repr

/-- Embedding of `GameStateManager.endGame`.  Returns the list of emitted
events together with the updated state.  `if (winner)` is JS truthiness: an
entity is truthy, `null` and `undefined` are falsy; then `winner === null`
separates the tie from the silent expiration.  The registry update is the
source's `splice(indexOf(gameboard), 1)`. -/
def endGame (st : ManagerState) (gameboard : GameBoard) (winner : WinnerArg) :
    List GameEvent × ManagerState :=
  let events : List GameEvent :=
    match winner with
    | WinnerArg.entity e => [GameEvent.win e (findOtherEntity gameboard.entities e)]
    | WinnerArg.null => [GameEvent.tie gameboard.entities]
    | WinnerArg.undef => []
  (events,
    { st with
      gameboards := spliceDeleteOne st.gameboards (jsIndexOf st.gameboards gameboard) })

/-- Embedding of `GameStateManager.createAI`: look the configured difficulty
name up in the enum when it is truthy (`undefined` and the empty string are
falsy), and build the AI (whose constructor, outside the excerpt, defaults
the difficulty when none is supplied). -/
def createAI (cfg : Configuration) (oid : Nat) : AI :=
  let lookedUp : Option AIDifficulty :=
    match cfg.aiDifficulty with
    | none => none
    | some s => if s = "" then none else aiDifficultyLevelOf s
  ⟨oid, lookedUp.getD defaultAIDifficulty⟩

/-- Whether a guild member is one of the two participants of a gameboard. -/
def memberInBoard (gb : GameBoard) (m : GuildMember) : Bool :=
  gb.entities.1 = Entity.member m || gb.entities.2 = Entity.member m

/-- Modelled from the spec: `GameStateValidator.isNewGamePossible` (the
validator class is outside the excerpt) — "true only if neither the author
nor (when present) the invited member participates in any existing registry
entry addressed to the same channel scope". -/
def isNewGamePossible (st : ManagerState) (tunnel : MessagingTunnel)
    (invited : Option GuildMember) : Bool :=
  !(st.gameboards.any (fun gb =>
    gb.channel = tunnel.channel &&
    (memberInBoard gb tunnel.author ||
      (match invited with
       | some m => memberInBoard gb m
       | none => false))))

/-- Outcome of one entry-point invocation: the promise's result, the final
manager state, the events emitted through the event hub, and the trace of
abstract actions in execution order. -/
structure Outcome where
  result : PResult Unit
  state : ManagerState
  events : List GameEvent
  trace : List Action
deriving DecidableEq, Repr

/-- Results of the external calls an entry point performs:
`interactionValid` is the validator's verdict on the tunnel (a fact about
the messaging world, not about the registry), `newGameError` is `some e`
when a handler of the `newGame` notification throws `e`, `replyResult` and
`attachResult` are the outcomes of the awaited `tunnel.replyWith` and
`attachTo` calls, and `now` is `Date.now()`. -/
structure CallEnv where
  interactionValid : Bool
  newGameError : Option JsError
  replyResult : PResult Nat
  attachResult : PResult Unit
  now : Int
deriving DecidableEq, Repr

/-- Embedding of `GameStateManager.createGame`.  Mirrors the source order:
validity gate (falling through to a resolved promise when invalid),
possibility gate (explicit `Promise.reject()`), gameboard construction,
veto-capable `newGame` emission, registry append, awaited reply, awaited
attach.  `freshBoardOid` and `freshAIOid` stand for the object references of
the freshly constructed gameboard and AI. -/
def createGame (st : ManagerState) (cfg : Configuration) (env : CallEnv)
    (tunnel : MessagingTunnel) (invited : Option GuildMember)
    (freshBoardOid freshAIOid : Nat) : Outcome :=
  if env.interactionValid then
    if isNewGamePossible st tunnel invited then
      let opponent : Entity :=
        match invited with
        | some m => Entity.member m
        | none => Entity.ai (createAI cfg freshAIOid)
      let gameboard : GameBoard :=
        { oid := freshBoardOid, channel := tunnel.channel,
          entities := (Entity.member tunnel.author, opponent) }
      match env.newGameError with
      | some e =>
        { result := PResult.rejected (some e), state := st,
          events := [GameEvent.newGame gameboard.entities],
          trace := [Action.validCheck, Action.possibleCheck, Action.emitNewGame] }
      | none =>
        let st' := { st with gameboards := st.gameboards ++ [gameboard] }
        match env.replyResult with
        | PResult.rejected e =>
          { result := PResult.rejected e, state := st',
            events := [GameEvent.newGame gameboard.entities],
            trace := [Action.validCheck, Action.possibleCheck, Action.emitNewGame,
                      Action.registryAppend, Action.awaitReply] }
        | PResult.resolved _ =>
          match env.attachResult with
          | PResult.rejected e =>
            { result := PResult.rejected e, state := st',
              events := [GameEvent.newGame gameboard.entities],
              trace := [Action.validCheck, Action.possibleCheck, Action.emitNewGame,
                        Action.registryAppend, Action.awaitReply, Action.awaitAttach] }
          | PResult.resolved _ =>
            { result := PResult.resolved (), state := st',
              events := [GameEvent.newGame gameboard.entities],
              trace := [Action.validCheck, Action.possibleCheck, Action.emitNewGame,
                        Action.registryAppend, Action.awaitReply, Action.awaitAttach] }
    else
      { result := PResult.rejected none, state := st, events := [],
        trace := [Action.validCheck, Action.possibleCheck] }
  else
    { result := PResult.resolved (), state := st, events := [],
      trace := [Action.validCheck] }

/-- Embedding of `GameStateManager.requestDuel`.  Mirrors the source order:
validity gate (silent fall-through when invalid), possibility gate,
DuelRequest construction (no I/O), awaited reply, awaited attach, and then —
only when the configured cooldown (`?? 0`) is positive — the cooldown-map
write `set(author.id, Date.now() + cooldown * 1000)`. -/
def requestDuel (st : ManagerState) (cfg : Configuration) (env : CallEnv)
    (tunnel : MessagingTunnel) (invited : GuildMember) : Outcome :=
  if env.interactionValid then
    if isNewGamePossible st tunnel (some invited) then
      match env.replyResult with
      | PResult.rejected e =>
        { result := PResult.rejected e, state := st, events := [],
          trace := [Action.validCheck, Action.possibleCheck, Action.constructDuel,
                    Action.awaitReply] }
      | PResult.resolved _ =>
        match env.attachResult with
        | PResult.rejected e =>
          { result := PResult.rejected e, state := st, events := [],
            trace := [Action.validCheck, Action.possibleCheck, Action.constructDuel,
                      Action.awaitReply, Action.awaitAttach] }
        | PResult.resolved _ =>
          let cooldown := cfg.requestCooldownTime.getD 0
          if cooldown > 0 then
            { result := PResult.resolved (),
              state :=
                { st with
                  memberCooldownEndTimes :=
                    mapSet st.memberCooldownEndTimes tunnel.author.id
                      (env.now + cooldown * 1000) },
              events := [],
              trace := [Action.validCheck, Action.possibleCheck, Action.constructDuel,
                        Action.awaitReply, Action.awaitAttach, Action.cooldownWrite] }
          else
            { result := PResult.resolved (), state := st, events := [],
              trace := [Action.validCheck, Action.possibleCheck, Action.constructDuel,
                        Action.awaitReply, Action.awaitAttach] }
    else
      { result := PResult.rejected none, state := st, events := [],
        trace := [Action.validCheck, Action.possibleCheck] }
  else
    { result := PResult.resolved (), state := st, events := [],
      trace := [Action.validCheck] }

/-- Result of the command layer's `processInvitation`: either an early
rejection with a localization key, or delegation to `handleInvitation` with
the (possibly absent) invited member. -/
inductive InvitationOutcome where
  | rejectedKey (key : String)
  | delegated (invited : Option GuildMember)
deriving DecidableEq, Repr

/-- Embedding of `GameCommand.processInvitation`: a present invited member
must not be a bot (`duel.no-bot`), and must be neither the inviter nor
blind to the originating channel (`duel.unknown-user`); otherwise the
invitation is delegated to `handleInvitation`. -/
def processInvitation (tunnel : MessagingTunnel) (inviter : GuildMember)
    (invited : Option GuildMember) : InvitationOutcome :=
  match invited with
  | some inv =>
    if !inv.bot then
      if inviter.id = inv.id || !(inv.viewChannels.contains tunnel.channel) then
        InvitationOutcome.rejectedKey ("duel.unknown-user")
      else
        InvitationOutcome.delegated (some inv)
    else
      InvitationOutcome.rejectedKey ("duel.no-bot")
  | none => InvitationOutcome.delegated none

/-- Result surfaced by the command layer after `handleInvitation`'s catch
clause: resolved, or rejected with a user-facing message key. -/
inductive CmdResult where
  | resolved
  | rejectedKey (msg : String)
deriving DecidableEq, Repr

/-- Embedding of the error mapping in `GameCommand.handleInvitation`:
`handler.catch(err => Promise.reject(err?.message ?? 'game.in-progress'))`. -/
def handleInvitationResult (r : PResult Unit) : CmdResult :=
  match r with
  | PResult.resolved _ => CmdResult.resolved
  | PResult.rejected none => CmdResult.rejectedKey ("game.in-progress")
  | PResult.rejected (some e) => CmdResult.rejectedKey (e.message.getD ("game.in-progress"))

/-- Actions strictly after the first suspension point of a trace. -/
def afterFirstAwait (tr : List Action) : List Action :=
  match tr.dropWhile (fun a => !a.isAwait) with
  | [] => []
  | _ :: rest => rest

/-!  Sample data used by concrete witnesses and counterexamples. -/

/-- Sample member A (id "A", not a bot, sees channels 1 and 2). -/
def memberA : GuildMember := ⟨1, "A", false, [1, 2]⟩

/-- Sample member B (id "B", not a bot, sees channels 1 and 2). -/
def memberB : GuildMember := ⟨2, "B", false, [1, 2]⟩

/-- Sample bot account. -/
def botMember : GuildMember := ⟨3, "BOT", true, [1, 2]⟩

/-- Sample member C (id "C", not a bot, sees no channel). -/
def memberC : GuildMember := ⟨4, "C", false, []⟩

/-- Entity wrapping member A. -/
def entA : Entity := Entity.member memberA

/-- Entity wrapping member B. -/
def entB : Entity := Entity.member memberB

/-- A gameboard between A and B in channel 1. -/
def boardAB : GameBoard := ⟨10, 1, (entA, entB)⟩

/-- A gameboard between C and an AI in channel 1, never registered in the
sample states below. -/
def boardCD : GameBoard := ⟨11, 1, (Entity.member memberC, Entity.ai ⟨30, AIDifficulty.hard⟩)⟩

/-- A manager state whose registry holds exactly `boardAB`. -/
def stOne : ManagerState := ⟨[boardAB], []⟩

/-- The empty manager state. -/
def stEmpty : ManagerState := ⟨[], []⟩

/-- A tunnel authored by A in channel 1. -/
def tunnelA1 : MessagingTunnel := ⟨memberA, 1⟩

/-- A tunnel authored by A in channel 2. -/
def tunnelA2 : MessagingTunnel := ⟨memberA, 2⟩

/-- A configuration with a 30 second cooldown and no configured difficulty. -/
def cfg30 : Configuration := ⟨some 30, none⟩

/-- A configuration with no cooldown and no configured difficulty. -/
def cfg0 : Configuration := ⟨none, none⟩

/-- An environment in which every external call succeeds. -/
def envOk : CallEnv := ⟨true, none, PResult.resolved 100, PResult.resolved (), 5000⟩

/-- An environment whose interaction is invalid. -/
def envInvalid : CallEnv := ⟨false, none, PResult.resolved 100, PResult.resolved (), 5000⟩

/-- An environment in which a `newGame` handler throws an error carrying no
message. -/
def envVeto : CallEnv := ⟨true, some ⟨none⟩, PResult.resolved 100, PResult.resolved (), 5000⟩

/-- An environment in which the awaited reply rejects. -/
def envReplyFail : CallEnv := ⟨true, none, PResult.rejected (some ⟨some ("boom")⟩), PResult.resolved (), 5000⟩

/-!  Helper lemmas about the JavaScript array and map primitives. -/

/-- On a missing element, `indexOf` returns `-1`. -/
theorem jsIndexOf_eq_neg_one {α : Type} [DecidableEq α] {l : List α} {a : α}
    (h : a ∉ l) : jsIndexOf l a = -1 := by
  induction l with
  | nil => rfl
  | cons b t ih =>
    simp only [List.mem_cons, not_or] at h
    have hba : ¬(b = a) := fun hba => h.1 hba.symm
    simp [jsIndexOf, hba, ih h.2]

/-- On a present element, `indexOf` is nonnegative. -/
theorem jsIndexOf_nonneg {α : Type} [DecidableEq α] {l : List α} {a : α}
    (h : a ∈ l) : 0 ≤ jsIndexOf l a := by
  induction l with
  | nil => cases h
  | cons b t ih =>
    by_cases hba : b = a
    · simp [jsIndexOf, hba]
    · have hat : a ∈ t := by
        cases h with
        | head => exact absurd rfl hba
        | tail _ h2 => exact h2
      have := ih hat
      simp only [jsIndexOf, if_neg hba]
      split
      · omega
      · omega

/-- The result of `indexOf` is always below the length. -/
theorem jsIndexOf_lt_length {α : Type} [DecidableEq α] (l : List α) (a : α) :
    jsIndexOf l a < l.length := by
  induction l with
  | nil => simp [jsIndexOf]
  | cons b t ih =>
    simp only [jsIndexOf, List.length_cons]
    split
    · push_cast; omega
    · split
      · push_cast; omega
      · push_cast
        push_cast at ih
        omega

/-- In bounds, `splice(i, 1)` keeps the prefix before `i` and drops the
element at `i`. -/
theorem spliceDeleteOne_inbounds {α : Type} (l : List α) (i : Int)
    (h0 : 0 ≤ i) (hl : i < (l.length : Int)) :
    spliceDeleteOne l i = l.take i.toNat ++ l.drop (i.toNat + 1) := by
  simp only [spliceDeleteOne]
  rw [if_neg (by omega : ¬i < 0)]
  rw [if_neg (by omega : ¬i > (l.length : Int))]

/-- The take/drop decomposition at the index of a present element is exactly
removal of its first occurrence. -/
theorem take_drop_jsIndexOf_eq_erase {α : Type} [DecidableEq α] {l : List α} {a : α}
    (h : a ∈ l) :
    l.take (jsIndexOf l a).toNat ++ l.drop ((jsIndexOf l a).toNat + 1) = l.erase a := by
  induction l with
  | nil => cases h
  | cons b t ih =>
    by_cases hba : b = a
    · subst hba
      have hz : jsIndexOf (b :: t) b = 0 := by simp [jsIndexOf]
      rw [hz]
      simp [List.erase_cons_head]
    · have hat : a ∈ t := by
        cases h with
        | head => exact absurd rfl hba
        | tail _ h2 => exact h2
      have hnn : 0 ≤ jsIndexOf t a := jsIndexOf_nonneg hat
      have hidx : jsIndexOf (b :: t) a = jsIndexOf t a + 1 := by
        simp only [jsIndexOf, if_neg hba]
        split
        · omega
        · rfl
      have htn : (jsIndexOf t a + 1).toNat = (jsIndexOf t a).toNat + 1 := by omega
      rw [hidx, htn, List.take_succ_cons, List.drop_succ_cons,
        List.erase_cons_tail (by simp only [beq_iff_eq]; exact hba)]
      rw [List.cons_append, ih hat]

/-- The source's removal idiom `splice(indexOf(a), 1)` removes exactly the
first occurrence of a present element. -/
theorem spliceDeleteOne_jsIndexOf {α : Type} [DecidableEq α] {l : List α} {a : α}
    (h : a ∈ l) : spliceDeleteOne l (jsIndexOf l a) = l.erase a := by
  rw [spliceDeleteOne_inbounds l _ (jsIndexOf_nonneg h) (jsIndexOf_lt_length l a),
    take_drop_jsIndexOf_eq_erase h]

/-- JavaScript `splice(-1, 1)` removes the last element when there is one. -/
theorem spliceDeleteOne_neg_one {α : Type} (l : List α) :
    spliceDeleteOne l (-1) = l.dropLast := by
  cases l with
  | nil => rfl
  | cons b t =>
    simp only [spliceDeleteOne]
    rw [if_pos (by omega : (-1 : Int) < 0)]
    rw [if_neg (by simp only [List.length_cons]; push_cast; omega :
      ¬(((b :: t).length : Int) + -1 < 0))]
    have htn : (((b :: t).length : Int) + -1).toNat = t.length := by
      simp only [List.length_cons]
      omega
    rw [htn, List.drop_succ_cons, List.drop_length, List.append_nil,
      List.dropLast_eq_take]
    simp

/-- Reading back the key just written by `Map.set` yields the written value. -/
theorem mapGet_mapSet_self (m : List (String × Int)) (k : String) (v : Int) :
    mapGet (mapSet m k v) k = some v := by
  induction m with
  | nil => simp [mapSet, mapGet]
  | cons p t ih =>
    by_cases hk : p.1 = k
    · have hcons : (p :: t).any (fun q => q.1 = k) = true := by
        simp [List.any_cons, hk]
      simp only [mapSet, hcons, if_true, List.map_cons, if_pos hk]
      simp only [mapGet]
      rw [List.find?_cons_of_pos _ (by simp)]
      rfl
    · by_cases ht : t.any (fun q => q.1 = k)
      · have hcons : (p :: t).any (fun q => q.1 = k) = true := by
          simp [List.any_cons, ht]
        simp only [mapSet, hcons, if_true, List.map_cons, if_neg hk]
        simp only [mapGet]
        rw [List.find?_cons_of_neg _ (by simp [hk])]
        have h2 := ih
        simp only [mapSet, ht, if_true, mapGet] at h2
        exact h2
      · have ht2 : t.any (fun q => q.1 = k) = false := by
          cases hq : t.any (fun q => q.1 = k)
          · rfl
          · exact absurd hq ht
        have hcons : (p :: t).any (fun q => q.1 = k) = false := by
          simp [List.any_cons, hk, ht2]
        simp only [mapSet, hcons, Bool.false_eq_true, if_false, List.cons_append]
        simp only [mapGet]
        rw [List.find?_cons_of_neg _ (by simp [hk])]
        have h2 := ih
        simp only [mapSet, ht, Bool.false_eq_true, if_false, mapGet] at h2
        exact h2

/-- Equality of manager states follows from equality of both fields. -/
theorem ManagerState.eq_of_fields {s1 s2 : ManagerState}
    (h1 : s1.gameboards = s2.gameboards)
    (h2 : s1.memberCooldownEndTimes = s2.memberCooldownEndTimes) : s1 = s2 := by
  cases s1
  cases s2
  simp_all

/-- C1: `endGame(gameboard, w)` with `w` one of the two (distinct) entities of
a registered gameboard emits exactly one `win` notification whose winner is
`w` and whose loser is the other entity; `endGame(gameboard, null)` emits
exactly one `tie` notification carrying both entities; `endGame(gameboard)`
with the argument omitted emits no outcome notification; and in all three
cases the gameboard is removed from the registry exactly once (the first
occurrence is erased and the board's multiplicity drops by exactly one). -/
theorem endGame_outcome_classification (st : ManagerState) (gb : GameBoard)
    (e1 e2 : Entity) (w : WinnerArg) (hne : e1 ≠ e2) (hent : gb.entities = (e1, e2))
    (hmem : gb ∈ st.gameboards) :
    (endGame st gb (WinnerArg.entity e1)).1 = [GameEvent.win e1 (some e2)] ∧
    (endGame st gb (WinnerArg.entity e2)).1 = [GameEvent.win e2 (some e1)] ∧
    (endGame st gb WinnerArg.null).1 = [GameEvent.tie (e1, e2)] ∧
    (endGame st gb WinnerArg.undef).1 = [] ∧
    (endGame st gb w).2.gameboards = st.gameboards.erase gb ∧
    (endGame st gb w).2.gameboards.count gb + 1 = st.gameboards.count gb := by
  have hstate : ∀ w2, (endGame st gb w2).2.gameboards = st.gameboards.erase gb := by
    intro w2
    simp only [endGame]
    exact spliceDeleteOne_jsIndexOf hmem
  refine ⟨?_, ?_, ?_, ?_, hstate w, ?_⟩
  · simp [endGame, findOtherEntity, hent, hne, Ne.symm hne]
  · simp [endGame, findOtherEntity, hent, hne, Ne.symm hne]
  · simp [endGame, hent]
  · simp [endGame]
  · rw [hstate w, List.count_erase_self]
    have hpos : 0 < st.gameboards.count gb := List.count_pos_iff.mpr hmem
    omega

/-- C1 witness: on a registry holding exactly the board between A and B, the
three outcome classifications and the single removal hold concretely. -/
theorem endGame_outcome_classification_witness :
    entA ≠ entB ∧
    ((endGame stOne boardAB (WinnerArg.entity entA)).1 = [GameEvent.win entA (some entB)] ∧
     (endGame stOne boardAB (WinnerArg.entity entB)).1 = [GameEvent.win entB (some entA)] ∧
     (endGame stOne boardAB WinnerArg.null).1 = [GameEvent.tie (entA, entB)] ∧
     (endGame stOne boardAB WinnerArg.undef).1 = [] ∧
     (endGame stOne boardAB WinnerArg.undef).2.gameboards = stOne.gameboards.erase boardAB ∧
     (endGame stOne boardAB WinnerArg.undef).2.gameboards.count boardAB + 1 =
       stOne.gameboards.count boardAB) :=
  ⟨by decide,
    endGame_outcome_classification stOne boardAB entA entB WinnerArg.undef
      (by decide) (by decide) (by decide)⟩

/-- C9: `endGame` on a gameboard that is not in the registry still performs
its notification branch, and — because `indexOf` returns `-1` and
`splice(-1, 1)` deletes the final entry — removes the registry's last element
whenever the registry is non-empty; only an empty registry is left
unchanged. -/
theorem endGame_unregistered (st : ManagerState) (gb : GameBoard) (w : WinnerArg)
    (h : gb ∉ st.gameboards) :
    (endGame st gb w).1 =
      (match w with
       | WinnerArg.entity e => [GameEvent.win e (findOtherEntity gb.entities e)]
       | WinnerArg.null => [GameEvent.tie gb.entities]
       | WinnerArg.undef => []) ∧
    (endGame st gb w).2.gameboards = st.gameboards.dropLast ∧
    (st.gameboards ≠ [] →
      (endGame st gb w).2.gameboards.length + 1 = st.gameboards.length) ∧
    (st.gameboards = [] → (endGame st gb w).2 = st) := by
  have hidx : jsIndexOf st.gameboards gb = -1 := jsIndexOf_eq_neg_one h
  have hstate : (endGame st gb w).2.gameboards = st.gameboards.dropLast := by
    simp only [endGame, hidx]
    exact spliceDeleteOne_neg_one _
  refine ⟨?_, hstate, ?_, ?_⟩
  · cases w <;> simp [endGame]
  · intro hne
    rw [hstate, List.length_dropLast]
    have : 0 < st.gameboards.length := List.length_pos.mpr hne
    omega
  · intro hnil
    refine ManagerState.eq_of_fields ?_ ?_
    · rw [hstate, hnil]
      rfl
    · simp [endGame]

/-- C9 witness: ending the never-registered board between C and the AI on the
one-entry registry removes the registered board between A and B. -/
theorem endGame_unregistered_witness :
    boardCD ∉ stOne.gameboards ∧
    ((endGame stOne boardCD WinnerArg.null).1 = [GameEvent.tie boardCD.entities] ∧
     (endGame stOne boardCD WinnerArg.null).2.gameboards = stOne.gameboards.dropLast ∧
     (stOne.gameboards ≠ [] →
       (endGame stOne boardCD WinnerArg.null).2.gameboards.length + 1 =
         stOne.gameboards.length) ∧
     (stOne.gameboards = [] → (endGame stOne boardCD WinnerArg.null).2 = stOne)) :=
  ⟨by decide, endGame_unregistered stOne boardCD WinnerArg.null (by decide)⟩

/-- C2 counterexample: a `createGame` invocation whose interaction is invalid
resolves successfully (the validity gate falls through silently) while the
registry does not grow at all, refuting the claim that every successfully
resolving invocation grows the registry by one entry. -/
theorem createGame_success_registers_counterexample :
    (createGame stEmpty cfg0 envInvalid tunnelA1 none 10 20).result = PResult.resolved () ∧
    (createGame stEmpty cfg0 envInvalid tunnelA1 none 10 20).state.gameboards = [] := by
  decide

/-- C2 (amended): every `createGame` invocation that passes the
interaction-validity gate and resolves successfully grows the registry by
exactly one entry, whose entities are the tunnel's author plus either the
invited member (when present) or a freshly constructed AI configured from the
bot's configured difficulty, the AI difficulty defaulting when that
configuration is unset. -/
theorem createGame_success_registers (st : ManagerState) (cfg : Configuration)
    (env : CallEnv) (tunnel : MessagingTunnel) (invited : Option GuildMember)
    (fb fa : Nat)
    (hvalid : env.interactionValid = true)
    (hres : (createGame st cfg env tunnel invited fb fa).result = PResult.resolved ()) :
    (createGame st cfg env tunnel invited fb fa).state.gameboards.length =
      st.gameboards.length + 1 ∧
    (createGame st cfg env tunnel invited fb fa).state.gameboards =
      st.gameboards ++
        [{ oid := fb, channel := tunnel.channel,
           entities := (Entity.member tunnel.author,
             match invited with
             | some m => Entity.member m
             | none => Entity.ai (createAI cfg fa)) }] ∧
    (cfg.aiDifficulty = none → createAI cfg fa = ⟨fa, defaultAIDifficulty⟩) := by
  have hai : cfg.aiDifficulty = none → createAI cfg fa = ⟨fa, defaultAIDifficulty⟩ := by
    intro hd
    simp [createAI, hd]
  by_cases hposs : isNewGamePossible st tunnel invited
  · cases hng : env.newGameError with
    | some e =>
      exfalso
      simp [createGame, hvalid, hposs, hng] at hres
    | none =>
      cases hrr : env.replyResult with
      | rejected er =>
        exfalso
        simp [createGame, hvalid, hposs, hng, hrr] at hres
      | resolved m =>
        cases har : env.attachResult with
        | rejected er =>
          exfalso
          simp [createGame, hvalid, hposs, hng, hrr, har] at hres
        | resolved u =>
          cases invited with
          | some mm =>
            refine ⟨?_, ?_, hai⟩ <;>
              simp [createGame, hvalid, hposs, hng, hrr, har]
          | none =>
            refine ⟨?_, ?_, hai⟩ <;>
              simp [createGame, hvalid, hposs, hng, hrr, har]
  · exfalso
    simp [createGame, hvalid, hposs] at hres

/-- C2 witness: a fully successful `createGame` against the AI on the empty
registry, with no configured difficulty. -/
theorem createGame_success_registers_witness :
    envOk.interactionValid = true ∧
    (createGame stEmpty cfg0 envOk tunnelA1 none 10 20).result = PResult.resolved () ∧
    ((createGame stEmpty cfg0 envOk tunnelA1 none 10 20).state.gameboards.length =
       stEmpty.gameboards.length + 1 ∧
     (createGame stEmpty cfg0 envOk tunnelA1 none 10 20).state.gameboards =
       stEmpty.gameboards ++
         [{ oid := 10, channel := tunnelA1.channel,
            entities := (Entity.member tunnelA1.author, Entity.ai (createAI cfg0 20)) }] ∧
     (cfg0.aiDifficulty = none → createAI cfg0 20 = ⟨20, defaultAIDifficulty⟩)) :=
  ⟨by decide, by decide,
    createGame_success_registers stEmpty cfg0 envOk tunnelA1 none 10 20
      (by decide) (by decide)⟩

/-- C3: when a `newGame` notification handler throws, `createGame` rejects
carrying the thrown error, the whole manager state (in particular the
registry) is left unchanged, and the command layer surfaces the error's
message or the default in-progress key when the error carries none. -/
theorem createGame_veto_rejects (st : ManagerState) (cfg : Configuration)
    (env : CallEnv) (tunnel : MessagingTunnel) (invited : Option GuildMember)
    (fb fa : Nat) (e : JsError)
    (hvalid : env.interactionValid = true)
    (hposs : isNewGamePossible st tunnel invited = true)
    (hveto : env.newGameError = some e) :
    (createGame st cfg env tunnel invited fb fa).result = PResult.rejected (some e) ∧
    (createGame st cfg env tunnel invited fb fa).state = st ∧
    handleInvitationResult (createGame st cfg env tunnel invited fb fa).result =
      CmdResult.rejectedKey (e.message.getD ("game.in-progress")) := by
  have h1 : (createGame st cfg env tunnel invited fb fa).result =
      PResult.rejected (some e) := by
    simp [createGame, hvalid, hposs, hveto]
  refine ⟨h1, ?_, ?_⟩
  · simp [createGame, hvalid, hposs, hveto]
  · rw [h1]
    rfl

/-- C3 witness: a vetoed creation on the empty registry, the handler throwing
an error with no message, surfaces the default in-progress key. -/
theorem createGame_veto_rejects_witness :
    envVeto.interactionValid = true ∧
    isNewGamePossible stEmpty tunnelA1 none = true ∧
    envVeto.newGameError = some ⟨none⟩ ∧
    ((createGame stEmpty cfg0 envVeto tunnelA1 none 10 20).result =
       PResult.rejected (some ⟨none⟩) ∧
     (createGame stEmpty cfg0 envVeto tunnelA1 none 10 20).state = stEmpty ∧
     handleInvitationResult (createGame stEmpty cfg0 envVeto tunnelA1 none 10 20).result =
       CmdResult.rejectedKey ("game.in-progress")) :=
  ⟨by decide, by decide, by decide,
    createGame_veto_rejects stEmpty cfg0 envVeto tunnelA1 none 10 20 ⟨none⟩
      (by decide) (by decide) (by decide)⟩

/-- C10: in `createGame` the registry append happens before the awaited
`replyWith` (all synchronous actions precede the first await in the trace),
so when the `newGame` notification succeeds but the reply or the attach
rejects, the promise rejects while the freshly appended gameboard remains in
the registry. -/
theorem createGame_append_survives_reply_failure (st : ManagerState)
    (cfg : Configuration) (env : CallEnv) (tunnel : MessagingTunnel)
    (invited : Option GuildMember) (fb fa : Nat) (er : Option JsError) (m : Nat)
    (hvalid : env.interactionValid = true)
    (hposs : isNewGamePossible st tunnel invited = true)
    (hnoveto : env.newGameError = none)
    (hfail : env.replyResult = PResult.rejected er ∨
      (env.replyResult = PResult.resolved m ∧ env.attachResult = PResult.rejected er)) :
    (createGame st cfg env tunnel invited fb fa).result = PResult.rejected er ∧
    (createGame st cfg env tunnel invited fb fa).state.gameboards =
      st.gameboards ++
        [{ oid := fb, channel := tunnel.channel,
           entities := (Entity.member tunnel.author,
             match invited with
             | some mm => Entity.member mm
             | none => Entity.ai (createAI cfg fa)) }] ∧
    (createGame st cfg env tunnel invited fb fa).trace.takeWhile
        (fun a => !a.isAwait) =
      [Action.validCheck, Action.possibleCheck, Action.emitNewGame,
       Action.registryAppend] := by
  rcases hfail with hrr | ⟨hrr, har⟩
  · cases invited <;>
      (refine ⟨?_, ?_, ?_⟩ <;>
        simp [createGame, hvalid, hposs, hnoveto, hrr, Action.isAwait, List.takeWhile])
  · cases invited <;>
      (refine ⟨?_, ?_, ?_⟩ <;>
        simp [createGame, hvalid, hposs, hnoveto, hrr, har, Action.isAwait, List.takeWhile])

/-- C10 witness: a creation whose reply rejects leaves the appended board in
the registry while the promise rejects. -/
theorem createGame_append_survives_reply_failure_witness :
    envReplyFail.interactionValid = true ∧
    isNewGamePossible stEmpty tunnelA1 none = true ∧
    envReplyFail.newGameError = none ∧
    envReplyFail.replyResult = PResult.rejected (some ⟨some ("boom")⟩) ∧
    ((createGame stEmpty cfg0 envReplyFail tunnelA1 none 10 20).result =
       PResult.rejected (some ⟨some ("boom")⟩) ∧
     (createGame stEmpty cfg0 envReplyFail tunnelA1 none 10 20).state.gameboards =
       stEmpty.gameboards ++
         [{ oid := 10, channel := tunnelA1.channel,
            entities := (Entity.member tunnelA1.author, Entity.ai (createAI cfg0 20)) }] ∧
     (createGame stEmpty cfg0 envReplyFail tunnelA1 none 10 20).trace.takeWhile
         (fun a => !a.isAwait) =
       [Action.validCheck, Action.possibleCheck, Action.emitNewGame,
        Action.registryAppend]) :=
  ⟨by decide, by decide, by decide, by decide,
    createGame_append_survives_reply_failure stEmpty cfg0 envReplyFail tunnelA1 none
      10 20 (some ⟨some ("boom")⟩) 0 (by decide) (by decide) (by decide)
      (Or.inl (by decide))⟩

/-- C4: in every execution of `requestDuel` and `createGame`, no registry
read (validator call), veto-capable `newGame` emission, or registry append
occurs after an asynchronous suspension point: the actions remaining after
the first await of either trace contain no registry operation. -/
theorem no_registry_op_after_await (st : ManagerState) (cfg : Configuration)
    (env : CallEnv) (tunnel : MessagingTunnel) (invited : Option GuildMember)
    (inv2 : GuildMember) (fb fa : Nat) :
    (afterFirstAwait (createGame st cfg env tunnel invited fb fa).trace).filter
        Action.isRegistryOp = [] ∧
    (afterFirstAwait (requestDuel st cfg env tunnel inv2).trace).filter
        Action.isRegistryOp = [] := by
  constructor
  · by_cases hv : env.interactionValid <;>
    by_cases hp : isNewGamePossible st tunnel invited <;>
    cases hng : env.newGameError <;>
    cases hrr : env.replyResult <;>
    cases har : env.attachResult <;>
    simp [createGame, hv, hp, hng, hrr, har, afterFirstAwait,
      Action.isAwait, Action.isRegistryOp]
  · by_cases hv : env.interactionValid <;>
    by_cases hp : isNewGamePossible st tunnel (some inv2) <;>
    cases hrr : env.replyResult <;>
    cases har : env.attachResult <;>
    by_cases hcd : (cfg.requestCooldownTime.getD 0) > 0 <;>
    simp [requestDuel, hv, hp, hrr, har, hcd, afterFirstAwait,
      Action.isAwait, Action.isRegistryOp]

/-- C5 counterexample: member A participates in a registry entry addressed to
channel 1, yet `isNewGamePossible` returns true for a request authored by A
in channel 2 — the blocking is scoped to the entry's channel, not to every
channel as the claim states. -/
theorem isNewGamePossible_cross_channel_counterexample :
    memberInBoard boardAB memberA = true ∧
    boardAB ∈ stOne.gameboards ∧
    tunnelA2.author = memberA ∧
    isNewGamePossible stOne tunnelA2 none = true := by
  decide

/-- The possibility check is false as soon as its membership scan succeeds. -/
theorem isNewGamePossible_eq_false_of_any (st : ManagerState)
    (tunnel : MessagingTunnel) (invited : Option GuildMember)
    (h : (st.gameboards.any (fun gb =>
      gb.channel = tunnel.channel &&
      (memberInBoard gb tunnel.author ||
        (match invited with
         | some mm => memberInBoard gb mm
         | none => false)))) = true) :
    isNewGamePossible st tunnel invited = false := by
  simp only [isNewGamePossible, h, Bool.not_true]

/-- C5 (amended): a member participating in a registry entry cannot start or
be invited into a new session whose request targets the same channel scope as
that entry: `isNewGamePossible` returns false whenever the proposed inviter
or invited member participates in an existing entry addressed to the
request's channel. -/
theorem isNewGamePossible_same_channel_blocks (st : ManagerState)
    (tunnel : MessagingTunnel) (invited : Option GuildMember) (m : GuildMember)
    (gb : GameBoard) (hgb : gb ∈ st.gameboards) (hch : gb.channel = tunnel.channel)
    (hpart : memberInBoard gb m = true)
    (hname : tunnel.author = m ∨ invited = some m) :
    isNewGamePossible st tunnel invited = false := by
  apply isNewGamePossible_eq_false_of_any
  refine List.any_eq_true.mpr ⟨gb, hgb, ?_⟩
  rcases hname with h | h
  · subst h
    simp [hch, hpart]
  · subst h
    simp [hch, hpart]

/-- C5 witness: member A, participant of the channel-1 entry, is blocked as
author of a new request in channel 1. -/
theorem isNewGamePossible_same_channel_blocks_witness :
    boardAB ∈ stOne.gameboards ∧
    boardAB.channel = tunnelA1.channel ∧
    memberInBoard boardAB memberA = true ∧
    tunnelA1.author = memberA ∧
    isNewGamePossible stOne tunnelA1 none = false :=
  ⟨by decide, by decide, by decide, by decide,
    isNewGamePossible_same_channel_blocks stOne tunnelA1 none memberA boardAB
      (by decide) (by decide) (by decide) (Or.inl (by decide))⟩

/-- C6 counterexample: a `requestDuel` whose interaction is invalid resolves
successfully while leaving the cooldown map empty even though the configured
cooldown (30s) is positive, refuting the claim for every successfully
resolving invocation. -/
theorem requestDuel_cooldown_counterexample :
    (cfg30.requestCooldownTime.getD 0) > 0 ∧
    (requestDuel stEmpty cfg30 envInvalid tunnelA1 memberB).result =
      PResult.resolved () ∧
    (requestDuel stEmpty cfg30 envInvalid tunnelA1 memberB).state.memberCooldownEndTimes = [] ∧
    mapGet
      (requestDuel stEmpty cfg30 envInvalid tunnelA1 memberB).state.memberCooldownEndTimes
      tunnelA1.author.id = none := by
  decide

/-- C6 (amended): every `requestDuel` invocation that passes the
interaction-validity gate and resolves successfully records, when the
configured cooldown is positive, `now + cooldown * 1000` against the
inviter's identity in the cooldown map (a 30s cooldown yields
`now + 30000`), and leaves the cooldown map unchanged when the cooldown is
unset or not positive. -/
theorem requestDuel_cooldown_behavior (st : ManagerState) (cfg : Configuration)
    (env : CallEnv) (tunnel : MessagingTunnel) (invited : GuildMember)
    (hvalid : env.interactionValid = true)
    (hres : (requestDuel st cfg env tunnel invited).result = PResult.resolved ()) :
    (0 < cfg.requestCooldownTime.getD 0 →
      (requestDuel st cfg env tunnel invited).state.memberCooldownEndTimes =
        mapSet st.memberCooldownEndTimes tunnel.author.id
          (env.now + (cfg.requestCooldownTime.getD 0) * 1000) ∧
      mapGet (requestDuel st cfg env tunnel invited).state.memberCooldownEndTimes
          tunnel.author.id =
        some (env.now + (cfg.requestCooldownTime.getD 0) * 1000)) ∧
    (¬ 0 < cfg.requestCooldownTime.getD 0 →
      (requestDuel st cfg env tunnel invited).state.memberCooldownEndTimes =
        st.memberCooldownEndTimes) := by
  by_cases hposs : isNewGamePossible st tunnel (some invited)
  · cases hrr : env.replyResult with
    | rejected er =>
      exfalso
      simp [requestDuel, hvalid, hposs, hrr] at hres
    | resolved m =>
      cases har : env.attachResult with
      | rejected er =>
        exfalso
        simp [requestDuel, hvalid, hposs, hrr, har] at hres
      | resolved u =>
        constructor
        · intro hcd
          have hmap :
              (requestDuel st cfg env tunnel invited).state.memberCooldownEndTimes =
                mapSet st.memberCooldownEndTimes tunnel.author.id
                  (env.now + (cfg.requestCooldownTime.getD 0) * 1000) := by
            simp [requestDuel, hvalid, hposs, hrr, har, hcd]
          exact ⟨hmap, by rw [hmap, mapGet_mapSet_self]⟩
        · intro hcd
          simp [requestDuel, hvalid, hposs, hrr, har, hcd]
  · exfalso
    simp [requestDuel, hvalid, hposs] at hres

/-- C6 witness: inviter A, invited B, empty registry, 30s cooldown — the
cooldown map afterwards maps A's identity to `now + 30000`. -/
theorem requestDuel_cooldown_behavior_witness :
    envOk.interactionValid = true ∧
    (requestDuel stEmpty cfg30 envOk tunnelA1 memberB).result = PResult.resolved () ∧
    ((0 < cfg30.requestCooldownTime.getD 0 →
      (requestDuel stEmpty cfg30 envOk tunnelA1 memberB).state.memberCooldownEndTimes =
        mapSet stEmpty.memberCooldownEndTimes tunnelA1.author.id
          (envOk.now + (cfg30.requestCooldownTime.getD 0) * 1000) ∧
      mapGet (requestDuel stEmpty cfg30 envOk tunnelA1 memberB).state.memberCooldownEndTimes
          tunnelA1.author.id =
        some (envOk.now + (cfg30.requestCooldownTime.getD 0) * 1000)) ∧
    (¬ 0 < cfg30.requestCooldownTime.getD 0 →
      (requestDuel stEmpty cfg30 envOk tunnelA1 memberB).state.memberCooldownEndTimes =
        stEmpty.memberCooldownEndTimes)) :=
  ⟨by decide, by decide,
    requestDuel_cooldown_behavior stEmpty cfg30 envOk tunnelA1 memberB
      (by decide) (by decide)⟩

/-- C7 counterexample: on an invalid interaction, `requestDuel` returns a
promise that resolves (with `undefined`), not a rejected promise as the claim
states. -/
theorem requestDuel_invalid_counterexample :
    envInvalid.interactionValid = false ∧
    (requestDuel stEmpty cfg30 envInvalid tunnelA1 memberB).result =
      PResult.resolved () := by
  decide

/-- C7 (amended): when `isInteractionValid` is false, `requestDuel` (and
likewise `createGame`) returns a promise that resolves silently with no
DuelRequest constructed, no event emitted and no state mutated: the trace
stops at the validity check. -/
theorem invalid_interaction_silent (st : ManagerState) (cfg : Configuration)
    (env : CallEnv) (tunnel : MessagingTunnel) (invited : Option GuildMember)
    (inv2 : GuildMember) (fb fa : Nat)
    (hinvalid : env.interactionValid = false) :
    (requestDuel st cfg env tunnel inv2).result = PResult.resolved () ∧
    (requestDuel st cfg env tunnel inv2).state = st ∧
    (requestDuel st cfg env tunnel inv2).events = [] ∧
    (requestDuel st cfg env tunnel inv2).trace = [Action.validCheck] ∧
    (createGame st cfg env tunnel invited fb fa).result = PResult.resolved () ∧
    (createGame st cfg env tunnel invited fb fa).state = st ∧
    (createGame st cfg env tunnel invited fb fa).events = [] ∧
    (createGame st cfg env tunnel invited fb fa).trace = [Action.validCheck] := by
  refine ⟨?_, ?_, ?_, ?_, ?_, ?_, ?_, ?_⟩ <;>
    simp [requestDuel, createGame, hinvalid]

/-- C7 witness: the silent resolution on a concrete invalid interaction. -/
theorem invalid_interaction_silent_witness :
    envInvalid.interactionValid = false ∧
    ((requestDuel stEmpty cfg30 envInvalid tunnelA1 memberB).result =
       PResult.resolved () ∧
     (requestDuel stEmpty cfg30 envInvalid tunnelA1 memberB).state = stEmpty ∧
     (requestDuel stEmpty cfg30 envInvalid tunnelA1 memberB).events = [] ∧
     (requestDuel stEmpty cfg30 envInvalid tunnelA1 memberB).trace = [Action.validCheck] ∧
     (createGame stEmpty cfg30 envInvalid tunnelA1 none 10 20).result =
       PResult.resolved () ∧
     (createGame stEmpty cfg30 envInvalid tunnelA1 none 10 20).state = stEmpty ∧
     (createGame stEmpty cfg30 envInvalid tunnelA1 none 10 20).events = [] ∧
     (createGame stEmpty cfg30 envInvalid tunnelA1 none 10 20).trace = [Action.validCheck]) :=
  ⟨by decide,
    invalid_interaction_silent stEmpty cfg30 envInvalid tunnelA1 none memberB 10 20
      (by decide)⟩

/-- C8: the command layer rejects an invitation naming a bot account with
`duel.no-bot`, and one naming (for a non-bot) the inviter themselves or a
member without view permission on the originating channel with
`duel.unknown-user`; in every such case the invitation is not delegated, so
no duel request or game is created. -/
theorem processInvitation_rejections (tunnel : MessagingTunnel)
    (inviter inv : GuildMember) :
    (inv.bot = true →
      processInvitation tunnel inviter (some inv) =
        InvitationOutcome.rejectedKey ("duel.no-bot")) ∧
    (inv.bot = false →
      (inviter.id = inv.id ∨ inv.viewChannels.contains tunnel.channel = false) →
      processInvitation tunnel inviter (some inv) =
        InvitationOutcome.rejectedKey ("duel.unknown-user")) := by
  constructor
  · intro hbot
    simp [processInvitation, hbot]
  · intro hbot hcase
    rcases hcase with h | h
    · simp [processInvitation, hbot, h]
    · have h2 : tunnel.channel ∉ inv.viewChannels := by
        simpa using h
      simp [processInvitation, hbot, h2]

/-- C8 witness: inviting the bot account rejects with `duel.no-bot`; inviting
oneself rejects with `duel.unknown-user`. -/
theorem processInvitation_rejections_witness :
    processInvitation tunnelA1 memberA (some botMember) =
      InvitationOutcome.rejectedKey ("duel.no-bot") ∧
    processInvitation tunnelA1 memberA (some memberA) =
      InvitationOutcome.rejectedKey ("duel.unknown-user") :=
  ⟨(processInvitation_rejections tunnelA1 memberA botMember).1 (by decide),
   (processInvitation_rejections tunnelA1 memberA memberA).2 (by decide)
     (Or.inl (by decide))⟩

end TicTacToe
